import Mathlib

/-!
Shallow embedding of spacestills (src/spacestills/gui.py): the StillFrame
class, the fetcher, the reload timer, the interval validator and the pieces
of the main event loop the verified properties are about. PIL images are
modelled by their reported format, their size and an abstract pixel content;
wall-clock time is an integer timestamp passed explicitly; Python object
identity, where a property is about it, is modelled by a heap of frames
addressed by index.
-/

namespace Spacestills

/-- Pixel dimensions of an image: width by height. -/
abbrev Size := Nat × Nat

/-- Frame width without aspect-ratio correction. -/
def WIDTH : Nat := 704

/-- Frame height without 16:9 aspect-ratio correction. -/
def HEIGHT : Nat := 480

/-- Frame height with 16:9 aspect-ratio correction. -/
def HEIGHT_16_9 : Nat := 396

/-- Minimum autoreload interval in seconds. -/
def MIN_DELTA : Int := 45

/-- Default autoreload interval in seconds; the source sets DELTA = MIN_DELTA. -/
def DELTA : Int := MIN_DELTA

/-- Maximum autoreload interval in seconds. -/
def MAX_DELTA : Int := 300

/-- Abstract pixel content of a PIL image: a solid colour, content decoded
from downloaded bytes, or the scaled copy PIL resize produces. Saving and
reopening an image preserves its content. -/
inductive Content where
  | solid (color : String)
  | decoded (data : List Nat)
  | scaled (orig : Content) (newSize : Size)
deriving DecidableEq, Repr

/-- Model of a PIL.Image: the format attribute (none for images created in
memory, e.g. by Image.new or by resize), the size, and the pixel content. -/
structure Image where
  format : Option String
  size : Size
  content : Content
deriving DecidableEq, Repr

/-- Model of the byte stream PIL save writes: the encoding format (canonical
PIL format name), plus the encoded size and content. -/
structure EncodedBytes where
  format : String
  size : Size
  content : Content
deriving DecidableEq, Repr

/-- PIL image.save(file, fmt): encode the image in the given format. The
argument is the canonical format name; the source passes the name png, which
PIL reports canonically as PNG when the stream is reopened. -/
def Image.save (img : Image) (fmt : String) : EncodedBytes :=
  ⟨fmt, img.size, img.content⟩

/-- PIL Image.open on a stream of successfully encoded image bytes: an image
whose format attribute reports the encoding, with the encoded size and
content. -/
def Image.openBytes (b : EncodedBytes) : Image :=
  ⟨some b.format, b.size, b.content⟩

/-- PIL image.resize(new_size): a new in-memory image of the requested size
holding scaled content; its format attribute is none. -/
def Image.resize (img : Image) (new_size : Size) : Image :=
  ⟨none, new_size, .scaled img.content new_size⟩

/-- Holds a still frame (class StillFrame): the current image and the cached
original image the instance was initialized with. -/
structure StillFrame where
  image : Image
  original : Image
deriving DecidableEq, Repr

/-- StillFrame._topng, acting on the image attribute: if the image format is
not PNG, save it as PNG into an in-memory file and reopen it. -/
def StillFrame._topng (image : Image) : Image :=
  if image.format = some "PNG" then image
  else Image.openBytes (Image.save image "PNG")

/-- StillFrame.__init__(image): convert the image to PNG and cache the
converted original; self.original = self.image aliases the converted image. -/
def StillFrame.init (image : Image) : StillFrame :=
  let png := StillFrame._topng image
  ⟨png, png⟩

/-- StillFrame.bytes(): save the current image as PNG into an in-memory file
and return the raw bytes. -/
def StillFrame.bytes (s : StillFrame) : EncodedBytes :=
  Image.save s.image "PNG"

/-- StillFrame.new_size(): the image size toggled between original and 16:9:
(WIDTH, HEIGHT_16_9) when the image size equals the cached original size,
(WIDTH, HEIGHT) otherwise. -/
def StillFrame.new_size (s : StillFrame) : Size :=
  if s.image.size = s.original.size then (WIDTH, HEIGHT_16_9) else (WIDTH, HEIGHT)

/-- StillFrame.resize(new_size), value level: if the image size differs from
new_size, the image attribute is replaced by the scaled image; otherwise
nothing changes. The Python method mutates self and returns self; the
object-identity side is modelled on the heap by StillFrame.resizeM below. -/
def StillFrame.resize (s : StillFrame) (new_size : Size) : StillFrame :=
  if s.image.size = new_size then s
  else { s with image := s.image.resize new_size }

/-- make_blank_image(size): a blank RGB image with a blue background;
PIL Image.new yields an in-memory image whose format attribute is none. The
source's default for size is (WIDTH, HEIGHT). -/
def make_blank_image (size : Size) : Image :=
  ⟨none, size, .solid "blue"⟩

/-- Body of an HTTP response as far as PIL decoding is concerned: either bytes
that decode to an image of some format, or bytes PIL cannot identify. -/
inductive Body where
  | imageData (fmt : String) (sz : Size) (content : Content)
  | garbage (data : List Nat)
deriving DecidableEq, Repr

/-- Outcome of requests.get(url, timeout=(0.5, 0.5)): a Timeout exception, a
requests connection error, or a response carrying a status code and a body. -/
inductive FetchOutcome where
  | timeout
  | connectionError
  | response (status_code : Nat) (body : Body)
deriving DecidableEq, Repr

/-- Python exceptions that can escape download_image in the model. -/
inductive PyError where
  | unidentifiedImage
  | connectionError
deriving DecidableEq, Repr

/-- PIL Image.open(BytesIO(response.content)): decode the body or raise
UnidentifiedImageError. -/
def Image.openBody : Body → Except PyError Image
  | .imageData fmt sz c => .ok ⟨some fmt, sz, c⟩
  | .garbage _ => .error .unidentifiedImage

/-- download_image(url) as a function of the network outcome. The try block
runs requests.get and, on status code 200, PIL decoding; on any other status
it makes a blank image. The except clause catches only
requests.exceptions.Timeout, so a decode error (and any non-Timeout requests
error) propagates to the caller. -/
def download_image (outcome : FetchOutcome) : Except PyError Image :=
  match outcome with
  | .timeout => .ok (make_blank_image (WIDTH, HEIGHT))
  | .connectionError => .error .connectionError
  | .response code body =>
      if code = 200 then Image.openBody body
      else .ok (make_blank_image (WIDTH, HEIGHT))

/-- True on the whitespace characters Python int ignores around a numeral. -/
def isPySpace (c : Char) : Bool :=
  c = ' ' || c = '\t' || c = '\n' || c = '\r'

/-- Value of a string of decimal digits, read left to right onto an
accumulator; none as soon as a non-digit appears. -/
def digitsVal : List Char → Nat → Option Nat
  | [], acc => some acc
  | c :: rest, acc =>
      if c.isDigit then digitsVal rest (acc * 10 + (c.toNat - 48)) else none

/-- Python int(string): surrounding whitespace stripped, then an optional sign
followed by at least one decimal digit; anything else raises ValueError,
modelled as none. (Python also accepts underscore digit separators and
non-ASCII digits; no input of this program uses them.) -/
def pyInt (s : String) : Option Int :=
  let cs := ((s.toList.dropWhile isPySpace).reverse.dropWhile isPySpace).reverse
  match cs with
  | [] => none
  | '+' :: rest =>
      if rest = [] then none else (digitsVal rest 0).map Int.ofNat
  | '-' :: rest =>
      if rest = [] then none else (digitsVal rest 0).map (fun n => -(n : Int))
  | _ => (digitsVal cs 0).map Int.ofNat

/-- validate_delta(value): check that value is an int within the proper range
for a time delta. isinteger records whether int(value) succeeded; on a parse
exception delta is set to the default; a parsed but out-of-range delta is also
replaced by the default; returns the delta and whether value was valid. -/
def validate_delta (value : String) : Int × Bool :=
  let isinteger := (pyInt value).isSome
  let delta : Int :=
    match pyInt value with
    | some n => n
    | none => DELTA
  let isvalid := decide (MIN_DELTA ≤ delta ∧ delta ≤ MAX_DELTA)
  let delta := if isvalid then delta else DELTA
  (delta, isinteger && isvalid)

/-- next_timeout(delta), with datetime.now() passed explicitly as an integer
timestamp in seconds: the moment right now + delta seconds from now. -/
def next_timeout (now : Int) (delta : Int) : Int :=
  now + delta

/-- timeout_due(next_timeout), with datetime.now() passed explicitly: whether
rightnow >= next_timeout. -/
def timeout_due (now : Int) (next_timeout : Int) : Bool :=
  decide (now ≥ next_timeout)

/-- Address of a Python object: an index into the list of allocated frames. -/
abbrev Addr := Nat

/-- The heap of StillFrame objects allocated so far. -/
structure PyHeap where
  frames : List StillFrame
deriving DecidableEq, Repr

/-- StillFrame.resize(new_size) as the Python method acts on the heap:
self.image = self.image.resize(new_size) rebinds an attribute of the existing
object, an in-place update at the same address, and return self hands back the
caller's reference unchanged. -/
def StillFrame.resizeM (h : PyHeap) (self : Addr) (new_size : Size) :
    PyHeap × Addr :=
  match h.frames.get? self with
  | some s => (⟨h.frames.set self (s.resize new_size)⟩, self)
  | none => (h, self)

/-- change_aspect_ratio(window, still, new_size): resize the still, push the
resized still's bytes to the window, and return resized_still, which is the
very reference resize returned. The display update is modelled by also
returning the bytes shown. -/
def change_aspect_ratio (h : PyHeap) (still : Addr) (new_size : Size) :
    PyHeap × Addr × Option EncodedBytes :=
  let r := StillFrame.resizeM h still new_size
  (r.1, r.2, (r.1.frames.get? r.2).map StillFrame.bytes)

/-- refresh builds a brand-new StillFrame from the downloaded image,
still = StillFrame(download_image(feed)): an allocation at a fresh address at
the end of the heap. -/
def refreshAlloc (h : PyHeap) (img : Image) : PyHeap × Addr :=
  (⟨h.frames ++ [StillFrame.init img]⟩, h.frames.length)

/-- The mutable state of main's event loop that the -UPDATE_DELTA- and reload
branches touch: the adopted interval delta, the scheduled deadline
next_reload_time, and the text of the -DELTA- input field. -/
structure LoopState where
  delta : Int
  next_reload_time : Int
  delta_input : String
deriving DecidableEq, Repr

/-- The -UPDATE_DELTA- branch of main: delta, valid = validate_delta of the
field text; if not valid the displayed field is reset to str(DELTA). The
branch deliberately does not update next_reload_time: the current cycle
completes at the already scheduled time. -/
def handle_update_delta (st : LoopState) : LoopState :=
  let v := validate_delta st.delta_input
  { st with
      delta := v.1,
      delta_input := if v.2 then st.delta_input else toString DELTA }

/-- The reload branch of main, as far as scheduling is concerned: after the
refresh, if -AUTORELOAD- is checked, next_reload_time = next_timeout(delta). -/
def handle_reload_schedule (st : LoopState) (now : Int) (autoreload : Bool) :
    LoopState :=
  if autoreload then { st with next_reload_time := next_timeout now st.delta }
  else st

/-- The Delta Validator as the spec words it, for comparison with
validate_delta: attempts integer parse; invalid parse or out-of-range value
yields (defaultInterval, false); in-range integer yields (parsedValue, true). -/
def validate_spec (rawInput : String) : Int × Bool :=
  match pyInt rawInput with
  | some n =>
      if MIN_DELTA ≤ n ∧ n ≤ MAX_DELTA then (n, true) else (DELTA, false)
  | none => (DELTA, false)

/-- Helper: the source validator computes exactly the spec validator. -/
theorem validate_delta_eq_spec (value : String) :
    validate_delta value = validate_spec value := by
  unfold validate_delta validate_spec
  cases h : pyInt value with
  | none => decide
  | some n =>
      by_cases hr : MIN_DELTA ≤ n ∧ n ≤ MAX_DELTA
      · simp [hr]
      · simp [hr]

end Spacestills

namespace Spacestills

/-- C1 counterexample: a decode failure is not caught by download_image. On an
HTTP 200 response whose body PIL cannot decode, the UnidentifiedImageError
raised by Image.open escapes past the boundary instead of producing the blue
placeholder, contradicting the claim that every network failure class
collapses into the placeholder and never raises. -/
theorem C1_download_image_raises_on_decode_failure :
    download_image (FetchOutcome.response 200 (Body.garbage [0])) =
      Except.error PyError.unidentifiedImage := by
  rfl

/-- C1 (amended): download_image returns the decoded image on HTTP 200 with a
decodable body, and the solid blue placeholder of default dimensions 704x480
on timeout or on any non-200 status; but only Timeout is caught, so a decode
failure on HTTP 200, or a connection error, raises past the boundary. -/
theorem C1_download_image_behaviour :
    download_image FetchOutcome.timeout =
        Except.ok (make_blank_image (WIDTH, HEIGHT)) ∧
    make_blank_image (WIDTH, HEIGHT) =
        ⟨none, (704, 480), Content.solid "blue"⟩ ∧
    (∀ code body, code ≠ 200 →
        download_image (FetchOutcome.response code body) =
          Except.ok (make_blank_image (WIDTH, HEIGHT))) ∧
    (∀ fmt sz c,
        download_image (FetchOutcome.response 200 (Body.imageData fmt sz c)) =
          Except.ok ⟨some fmt, sz, c⟩) ∧
    (∀ data,
        download_image (FetchOutcome.response 200 (Body.garbage data)) =
          Except.error PyError.unidentifiedImage) ∧
    download_image FetchOutcome.connectionError =
        Except.error PyError.connectionError := by
  refine ⟨rfl, rfl, ?_, fun fmt sz c => rfl, fun data => rfl, rfl⟩
  intro code body hcode
  simp [download_image, hcode]

/-- C1 witness: the amended theorem applied to a 404 response. -/
theorem C1_download_image_behaviour_witness :
    download_image (FetchOutcome.response 404 (Body.garbage [])) =
      Except.ok (make_blank_image (WIDTH, HEIGHT)) :=
  C1_download_image_behaviour.2.2.1 404 (Body.garbage []) (by decide)

/-- C2: validate_delta agrees everywhere with the spec validator, which maps
an in-range parsed integer to (parsedValue, true) and a failed parse or an
out-of-range value to the default (45, false), not the nearest bound; in
particular on the inputs "100", "10" and "abc". -/
theorem C2_validate_delta_matches_spec :
    (∀ value : String, validate_delta value = validate_spec value) ∧
    validate_delta "100" = (100, true) ∧
    validate_delta "10" = (45, false) ∧
    validate_delta "abc" = (45, false) := by
  refine ⟨validate_delta_eq_spec, by decide, by decide, by decide⟩

end Spacestills

namespace Spacestills

/-- C3 counterexample: a frame built from a 100x100 image. Toggling twice
(new_size then resize, twice) moves its image to 704x480, not back to the
100x100 original size: the double-toggle property fails for frames whose
original size is not one of the two fixed sizes. -/
theorem C3_double_toggle_counterexample :
    let s := StillFrame.init ⟨some "PNG", (100, 100), Content.solid "blue"⟩
    ¬ (((s.resize s.new_size).resize (s.resize s.new_size).new_size).image.size
        = s.original.size) := by
  decide

/-- C3 (amended): for a frame whose image is at its cached original size and
whose original size is one of the two fixed sizes, native 704x480 or
16:9-corrected 704x396, computing new_size and resizing to it twice in
succession returns the image to the frame's original size. -/
theorem C3_double_toggle_restores_original
    (s : StillFrame)
    (h1 : s.image.size = s.original.size)
    (h2 : s.original.size = (WIDTH, HEIGHT) ∨
      s.original.size = (WIDTH, HEIGHT_16_9)) :
    ((s.resize s.new_size).resize (s.resize s.new_size).new_size).image.size
      = s.original.size := by
  rcases h2 with h2 | h2 <;>
    simp [StillFrame.resize, StillFrame.new_size, Image.resize, h1, h2,
      WIDTH, HEIGHT, HEIGHT_16_9]

/-- C3 witness: the amended theorem applied to the frame built from the blue
placeholder image at the native 704x480 size. -/
theorem C3_double_toggle_restores_original_witness :
    (((StillFrame.init (make_blank_image (WIDTH, HEIGHT))).resize
        (StillFrame.init (make_blank_image (WIDTH, HEIGHT))).new_size).resize
      ((StillFrame.init (make_blank_image (WIDTH, HEIGHT))).resize
        (StillFrame.init (make_blank_image (WIDTH, HEIGHT))).new_size).new_size
      ).image.size
      = (StillFrame.init (make_blank_image (WIDTH, HEIGHT))).original.size :=
  C3_double_toggle_restores_original _ (by decide) (Or.inl (by decide))

/-- C4 counterexample: resize does not yield a new Frame instance. On a heap
holding one frame at address 0 with image size 704x480, resizing to 704x396
returns the same address 0, and the frame stored at that address has changed:
the existing instance was mutated in place, not replaced. -/
theorem C4_resize_mutates_counterexample :
    let f : StillFrame :=
      ⟨⟨some "PNG", (704, 480), Content.solid "blue"⟩,
       ⟨some "PNG", (704, 480), Content.solid "blue"⟩⟩
    let h : PyHeap := ⟨[f]⟩
    (StillFrame.resizeM h 0 (704, 396)).2 = 0 ∧
      (StillFrame.resizeM h 0 (704, 396)).1.frames.get? 0 ≠ h.frames.get? 0 := by
  decide

/-- C4 (amended): refresh does replace the frame wholesale, allocating a fresh
StillFrame at a previously unused address, but resize, and change_aspect_ratio
built on it, mutate the addressed frame in place and return the same
reference; instances stay independent: resizing one address leaves every other
address unchanged. -/
theorem C4_refresh_allocates_resize_mutates :
    (∀ h img, (refreshAlloc h img).2 = h.frames.length ∧
        h.frames.get? (refreshAlloc h img).2 = none ∧
        (refreshAlloc h img).1.frames.get? (refreshAlloc h img).2
          = some (StillFrame.init img)) ∧
    (∀ h a ns, (StillFrame.resizeM h a ns).2 = a) ∧
    (∀ h a ns s, h.frames.get? a = some s →
        (StillFrame.resizeM h a ns).1.frames.get? a = some (s.resize ns)) ∧
    (∀ h a ns b, b ≠ a →
        (StillFrame.resizeM h a ns).1.frames.get? b = h.frames.get? b) ∧
    (∀ h a ns, (change_aspect_ratio h a ns).2.1 = a) := by
  refine ⟨?_, ?_, ?_, ?_, ?_⟩
  · intro h img
    refine ⟨rfl, List.get?_len_le le_rfl, ?_⟩
    exact List.get?_concat_length h.frames (StillFrame.init img)
  · intro h a ns
    unfold StillFrame.resizeM
    cases h.frames.get? a <;> rfl
  · intro h a ns s hs
    have ha : a < h.frames.length := by
      by_contra hlt
      rw [List.get?_len_le (Nat.le_of_not_lt hlt)] at hs
      exact Option.noConfusion hs
    unfold StillFrame.resizeM
    rw [hs]
    exact List.get?_set_eq_of_lt _ ha
  · intro h a ns b hb
    unfold StillFrame.resizeM
    cases hg : h.frames.get? a with
    | none => rfl
    | some s => exact List.get?_set_ne _ h.frames (fun e => hb e.symm)
  · intro h a ns
    unfold change_aspect_ratio StillFrame.resizeM
    cases h.frames.get? a <;> rfl

/-- C4 witness: the amended theorem applied to a two-frame heap: resizing the
frame at address 0 stores the resized frame back at address 0 and leaves
address 1 untouched. -/
theorem C4_refresh_allocates_resize_mutates_witness :
    (StillFrame.resizeM
        ⟨[StillFrame.init (make_blank_image (WIDTH, HEIGHT)),
          StillFrame.init (make_blank_image (WIDTH, HEIGHT_16_9))]⟩
        0 (704, 396)).1.frames.get? 0
      = some ((StillFrame.init (make_blank_image (WIDTH, HEIGHT))).resize
          (704, 396)) ∧
    (StillFrame.resizeM
        ⟨[StillFrame.init (make_blank_image (WIDTH, HEIGHT)),
          StillFrame.init (make_blank_image (WIDTH, HEIGHT_16_9))]⟩
        0 (704, 396)).1.frames.get? 1
      = (⟨[StillFrame.init (make_blank_image (WIDTH, HEIGHT)),
           StillFrame.init (make_blank_image (WIDTH, HEIGHT_16_9))]⟩ :
          PyHeap).frames.get? 1 :=
  ⟨C4_refresh_allocates_resize_mutates.2.2.1
      ⟨[StillFrame.init (make_blank_image (WIDTH, HEIGHT)),
        StillFrame.init (make_blank_image (WIDTH, HEIGHT_16_9))]⟩
      0 (704, 396) (StillFrame.init (make_blank_image (WIDTH, HEIGHT))) rfl,
   C4_refresh_allocates_resize_mutates.2.2.2.1
      ⟨[StillFrame.init (make_blank_image (WIDTH, HEIGHT)),
        StillFrame.init (make_blank_image (WIDTH, HEIGHT_16_9))]⟩
      0 (704, 396) 1 (by decide)⟩

end Spacestills

namespace Spacestills

/-- C5: constructing a StillFrame re-encodes the stored image to PNG: for any
input image, PNG already or not, the constructed frame's image reports format
PNG with size and content preserved, and bytes() therefore emits PNG-encoded
bytes of the same dimensions. -/
theorem C5_construction_reencodes_to_png (image : Image) :
    (StillFrame.init image).image.format = some "PNG" ∧
    (StillFrame.init image).image.size = image.size ∧
    (StillFrame.init image).image.content = image.content ∧
    (StillFrame.init image).bytes.format = "PNG" ∧
    (StillFrame.init image).bytes.size = image.size := by
  unfold StillFrame.init StillFrame._topng StillFrame.bytes Image.openBytes
    Image.save
  by_cases hf : image.format = some "PNG" <;> simp [hf]

/-- C6: resize replaces the image with a scaled copy exactly when the current
image size differs from the target, leaving the cached original untouched,
and is the identity when the sizes already match; the resized image has the
target size, and resizing to the current size leaves the dimensions of
bytes() unchanged. -/
theorem C6_resize_exact_and_idempotent (s : StillFrame) (new_size : Size) :
    (s.image.size = new_size → s.resize new_size = s) ∧
    (s.image.size ≠ new_size →
        (s.resize new_size).image = s.image.resize new_size ∧
        (s.resize new_size).original = s.original) ∧
    (s.resize new_size).image.size = new_size ∧
    (s.resize s.image.size).bytes.size = s.bytes.size := by
  refine ⟨?_, ?_, ?_, ?_⟩
  · intro hsz
    simp [StillFrame.resize, hsz]
  · intro hsz
    simp [StillFrame.resize, hsz]
  · by_cases hsz : s.image.size = new_size <;>
      simp [StillFrame.resize, Image.resize, hsz]
  · simp [StillFrame.resize, StillFrame.bytes, Image.save]

/-- C6 witness: on the frame built from the blue placeholder, resizing to the
current 704x480 size is the identity, and resizing to 704x396 replaces the
image with the scaled copy. -/
theorem C6_resize_exact_and_idempotent_witness :
    (StillFrame.init (make_blank_image (WIDTH, HEIGHT))).resize (704, 480)
      = StillFrame.init (make_blank_image (WIDTH, HEIGHT)) ∧
    ((StillFrame.init (make_blank_image (WIDTH, HEIGHT))).resize
        (704, 396)).image
      = (StillFrame.init (make_blank_image (WIDTH, HEIGHT))).image.resize
          (704, 396) :=
  ⟨(C6_resize_exact_and_idempotent
      (StillFrame.init (make_blank_image (WIDTH, HEIGHT))) (704, 480)).1
      (by decide),
   ((C6_resize_exact_and_idempotent
      (StillFrame.init (make_blank_image (WIDTH, HEIGHT))) (704, 396)).2.1
      (by decide)).1⟩

/-- C7: the -UPDATE_DELTA- branch adopts the validated interval and leaves
next_reload_time unchanged, so the current cycle completes on the old
schedule; the frame and the rest of the state are untouched, and the adopted
interval is what the reload branch uses the next time it reschedules. -/
theorem C7_update_delta_keeps_deadline (st : LoopState) (now : Int) :
    (handle_update_delta st).next_reload_time = st.next_reload_time ∧
    (handle_update_delta st).delta = (validate_delta st.delta_input).1 ∧
    (handle_reload_schedule (handle_update_delta st) now true).next_reload_time
      = now + (validate_delta st.delta_input).1 := by
  unfold handle_update_delta handle_reload_schedule next_timeout
  simp

/-- C8: next_timeout is the current time plus the interval, and timeout_due
holds exactly when the current time has reached the deadline; hence a deadline
computed from a positive interval is not due at the moment of computation and
becomes due once time reaches or passes it. -/
theorem C8_timer_correct (now delta t : Int) :
    next_timeout now delta = now + delta ∧
    (timeout_due t (next_timeout now delta) = true ↔ t ≥ now + delta) ∧
    (0 < delta → timeout_due now (next_timeout now delta) = false) ∧
    (t ≥ now + delta → timeout_due t (next_timeout now delta) = true) := by
  refine ⟨rfl, ?_, ?_, ?_⟩
  · simp [timeout_due, next_timeout]
  · intro hd
    simp [timeout_due, next_timeout]
    omega
  · intro ht
    simp [timeout_due, next_timeout]
    omega

/-- C8 witness: with the default 45-second interval computed at time 1000, the
deadline is not due at 1000 and is due at 1045. -/
theorem C8_timer_correct_witness :
    timeout_due 1000 (next_timeout 1000 45) = false ∧
    timeout_due 1045 (next_timeout 1000 45) = true :=
  ⟨(C8_timer_correct 1000 45 1045).2.2.1 (by decide),
   (C8_timer_correct 1000 45 1045).2.2.2 (by decide)⟩

/-- C9: the interval component of validate_delta always lies within
[MIN_DELTA, MAX_DELTA] = [45, 300], also when the validity flag is false,
because every invalid input maps to the default 45, which is itself in
range. -/
theorem C9_validate_delta_in_range (value : String) :
    MIN_DELTA ≤ (validate_delta value).1 ∧
      (validate_delta value).1 ≤ MAX_DELTA := by
  rw [validate_delta_eq_spec]
  unfold validate_spec
  cases h : pyInt value with
  | none => decide
  | some n =>
      by_cases hr : MIN_DELTA ≤ n ∧ n ≤ MAX_DELTA
      · simpa [hr] using hr
      · simp only [MIN_DELTA, MAX_DELTA, DELTA] at hr ⊢
        rw [if_neg hr]
        decide

/-- C10: immediately after construction the stored image equals the cached
original, since self.original aliases the freshly converted self.image, so the
first new_size of a fresh frame is the 16:9-corrected size (704, 396),
whatever the dimensions of the input image. -/
theorem C10_fresh_frame_toggles_to_16_9 (image : Image) :
    (StillFrame.init image).image = (StillFrame.init image).original ∧
    (StillFrame.init image).new_size = (704, 396) := by
  unfold StillFrame.init StillFrame.new_size
  simp [WIDTH, HEIGHT_16_9]

end Spacestills
